import Mathlib

/-!
Shallow embedding of the mushroom-frontend client (src/src/App.tsx and
src/src/services/api.ts).

The form state is a JavaScript object mapping feature names to selected
string values; we embed it as an association list `List (String × String)`
in insertion order, which is the order `Object.entries` iterates.
Asynchronous HTTP calls are embedded by passing the server's outcome as an
explicit argument (an oracle), and each handler returns, next to the new
component state, the list of request bodies it issued, so that "the
endpoint is called exactly once with body b" is the statement that this
list equals `[b]`.
-/

/-- Embeds `PredictionResult.prediction : 'edible' | 'poisonous'` (App.tsx line 9). -/
inductive Prediction where
  | edible
  | poisonous
deriving DecidableEq, Repr

/-- The string the tag renders as in the JSX (`{result.prediction}`). -/
def Prediction.render : Prediction → String
  | .edible => "edible"
  | .poisonous => "poisonous"

/-- Embeds `interface PredictionResult` (App.tsx lines 8-11); the confidence,
a JS number, is embedded as a rational. -/
structure PredictionResult where
  prediction : Prediction
  confidence : ℚ
deriving DecidableEq, Repr

/-- Embeds `MushroomFeatures`: a JS object from feature name to string value,
embedded as an association list in insertion order. -/
abbrev Features := List (String × String)

/-- Embeds `REQUIRED_FEATURES` (App.tsx lines 17-30). -/
def REQUIRED_FEATURES : List String :=
  [ "odor"
  , "spore-print-color"
  , "gill-color"
  , "cap-color"
  , "bruises"
  , "ring-type"
  , "gill-spacing"
  , "cap-shape"
  , "population"
  , "habitat"
  , "stalk-surface-above-ring"
  , "cap-surface" ]

/-- JS `str.split('-')` on the character list: splits at every dash, so
`"a--b"` yields `["a", "", "b"]` and `""` yields `[""]`. -/
def splitOnDash : List Char → List (List Char)
  | [] => [[]]
  | c :: rest =>
    if c = '-' then [] :: splitOnDash rest
    else
      match splitOnDash rest with
      | [] => [[c]]
      | w :: ws => (c :: w) :: ws

/-- Embeds `word.charAt(0).toUpperCase() + word.slice(1)` (App.tsx line 105);
`charAt(0)` of the empty string is empty, so the empty word maps to
itself. -/
def capitalizeWord (w : List Char) : String :=
  match w with
  | [] => ""
  | c :: rest => String.mk (c.toUpper :: rest)

/-- Embeds `key.split('-').map(capitalize).join(' ')` (App.tsx line 105). -/
def humanize (key : String) : String :=
  String.intercalate " " ((splitOnDash key.data).map capitalizeWord)

/-- The `.filter` stage of the validation pipeline (App.tsx line 104):
entries whose key is in `REQUIRED_FEATURES` and whose value is falsy
(for a string, empty). -/
def emptyRequiredEntries (fs : Features) : Features :=
  fs.filter (fun kv => REQUIRED_FEATURES.contains kv.1 && kv.2 == "")

/-- The keys of the empty required entries (before humanization). -/
def emptyRequiredKeys (fs : Features) : List String :=
  (emptyRequiredEntries fs).map Prod.fst

/-- Embeds `emptyRequiredFields` (App.tsx lines 103-105): the filter stage
followed by `.map(([key]) => key.split('-')....join(' '))`. -/
def emptyRequiredFields (fs : Features) : List String :=
  (emptyRequiredKeys fs).map humanize

/-- The component state held in `useState` hooks (App.tsx lines 33-44).
`imagePreview` holds the object URL, embedded as the file name. -/
structure AppState where
  result : Option PredictionResult
  loading : Bool
  error : Option String
  imagePreview : Option String
  features : Features
deriving DecidableEq, Repr

/-- Outcome of `axios.post(API_URL/predict, features)` as `handleSubmit`
observes it: either a parsed `PredictionResult` body, or a failure
carrying `err.response?.data?.error` when that chain is present. -/
inductive PredictResponse where
  | success (data : PredictionResult)
  | failure (errorField : Option String)
deriving DecidableEq, Repr

/-- The validation-failure message (App.tsx line 108). -/
def missingFieldsMessage (missing : List String) : String :=
  "Please fill in all required fields: " ++ String.intercalate ", " missing

/-- The generic prediction fallback message (App.tsx line 120). -/
def predictionFallbackMessage : String :=
  "Failed to get prediction. Please try again."

/-- Embeds `handleSubmit` (App.tsx lines 97-126). Returns the new state and the
list of request bodies POSTed to `/predict` during the call. -/
def handleSubmit (s : AppState) (server : PredictResponse) :
    AppState × List Features :=
  let s1 := { s with loading := true, error := none }
  let missing := emptyRequiredFields s1.features
  if missing.length > 0 then
    ({ s1 with error := some (missingFieldsMessage missing), loading := false }, [])
  else
    match server with
    | .success data =>
        ({ s1 with result := some data, loading := false }, [s1.features])
    | .failure errorField =>
        ({ s1 with
            error := some (errorField.getD predictionFallbackMessage)
          , loading := false }
        , [s1.features])

/-- Outcome of the `fetch(API_URL/analyze-image, ...)` call as
`handleImageUpload` observes it: a thrown transport error or non-ok
response (both reach the same `catch`), or a parsed JSON body whose
`features` field is absent/falsy or holds a mapping. -/
inductive ImageResponse where
  | httpError
  | ok (detected : Option (List (String × String)))
deriving DecidableEq, Repr

/-- JS property read `obj[k]` on the embedded object: the value stored at
key `k`, or `none` when `k` is not a key. -/
def getValue (fs : Features) (k : String) : Option String :=
  match fs with
  | [] => none
  | e :: rest => if e.1 = k then some e.2 else getValue rest k

/-- Embeds `newFeatures[key] = value` for a key already present: JS assignment to
an existing own property replaces the value in place. -/
def assocSet (fs : Features) (k v : String) : Features :=
  fs.map (fun e => if e.1 = k then (e.1, v) else e)

/-- Property names every plain JS object inherits from `Object.prototype`,
so that for a plain object `o` with none of them as own keys, `name in o`
is still true for each of them. -/
def OBJECT_PROTOTYPE_KEYS : List String :=
  [ "constructor", "hasOwnProperty", "isPrototypeOf", "propertyIsEnumerable"
  , "toLocaleString", "toString", "valueOf", "__proto__"
  , "__defineGetter__", "__defineSetter__", "__lookupGetter__", "__lookupSetter__" ]

/-- Embeds the assignment `newFeatures[key] = value` (App.tsx line 84): it
replaces the value in place when `key` is an own key, is absorbed by the
inherited `__proto__` accessor (assigning a string through it leaves the
object unchanged), and otherwise creates a new own entry at the end. -/
def jsAssign (fs : Features) (k v : String) : Features :=
  if k ∈ fs.map Prod.fst then assocSet fs k v
  else if k = "__proto__" then fs
  else fs ++ [(k, v)]

/-- The merge loop of `handleImageUpload` (App.tsx lines 81-87):
`Object.entries(data.features).forEach(([key, value]) => { if (key in
newFeatures) newFeatures[key] = value; })`, starting from a copy of the
current features. JS `in` consults the prototype chain, so the guard also
passes for a detected key that is not an own key but matches an
`Object.prototype` member name, and the assignment then creates a new own
entry for it. -/
def mergeDetected (fs : Features) (detected : List (String × String)) :
    Features :=
  detected.foldl
    (fun acc kv =>
      if kv.1 ∈ acc.map Prod.fst ∨ kv.1 ∈ OBJECT_PROTOTYPE_KEYS then
        jsAssign acc kv.1 kv.2
      else acc)
    fs

/-- The image-analysis failure message (App.tsx line 91). -/
def imageFallbackMessage : String :=
  "Failed to analyze image. Please try again."

/-- Embeds `handleImageUpload` (App.tsx lines 53-95). `files` embeds
`event.target.files` (absent embeds as `[]`); the second component lists
the files POSTed to `/analyze-image` during the call. -/
def handleImageUpload (s : AppState) (files : List String)
    (server : ImageResponse) : AppState × List String :=
  match files with
  | [] => (s, [])
  | file :: _ =>
    let s1 := { s with imagePreview := some file }
    let s2 := { s1 with loading := true }
    match server with
    | .httpError =>
        ({ s2 with error := some imageFallbackMessage, loading := false }, [file])
    | .ok none => ({ s2 with loading := false }, [file])
    | .ok (some detected) =>
        ({ s2 with features := mergeDetected s2.features detected
                 , loading := false }
        , [file])

/-!
The API client wrapper (src/src/services/api.ts). Each function does one
`try { await api.<verb>(...); return response.data } catch { console.error;
throw error }`: the transport outcome is passed in as `Except ε α` (an
arbitrary error type `ε`, so "rethrows the original error unchanged" is
statable), and each function returns the list of request bodies it issued
next to its own outcome.
-/

/-- Embeds `predictMushroom` (api.ts lines 12-20): POST `features`, return
`response.data` or rethrow. -/
def predictMushroom {ε α : Type} (features : Features)
    (transport : Except ε α) : List Features × Except ε α :=
  match transport with
  | .ok respData => ([features], .ok respData)
  | .error e => ([features], .error e)

/-- Embeds `analyzeImage` (api.ts lines 22-37): POST the image file as form data,
return `response.data` or rethrow. -/
def analyzeImage {ε α : Type} (imageFile : String)
    (transport : Except ε α) : List String × Except ε α :=
  match transport with
  | .ok respData => ([imageFile], .ok respData)
  | .error e => ([imageFile], .error e)

/-- Embeds `checkHealth` (api.ts lines 39-47): GET `/api/health`, return
`response.data` or rethrow; the request list counts the GETs issued. -/
def checkHealth {ε α : Type} (transport : Except ε α) :
    List Unit × Except ε α :=
  match transport with
  | .ok respData => ([()], .ok respData)
  | .error e => ([()], .error e)

/-!
Rendering of the result block (App.tsx lines 243-269). `toFixed(2)` on a
JS number renders the nearest two-decimal value, ties toward the larger
candidate, on the magnitude with the sign prepended; embedded over ℚ.
-/

/-- Embeds `x.toFixed(2)`: with `n` the integer nearest `|x|·100` (ties up),
render `n/100` with exactly two decimals and the sign of `x`. -/
def toFixedTwo (x : ℚ) : String :=
  let sign := if x < 0 then "-" else ""
  let n : ℕ := (⌊|x| * 100 + 1 / 2⌋).toNat
  let fr := n % 100
  sign ++ toString (n / 100) ++ "." ++ (if fr < 10 then "0" else "") ++ toString fr

/-- The confidence line `Confidence: {(result.confidence * 100).toFixed(2)}%`
(App.tsx line 263). -/
def confidenceText (r : PredictionResult) : String :=
  "Confidence: " ++ toFixedTwo (r.confidence * 100) ++ "%"

/-- The verdict heading `This mushroom is predicted to be
{result.prediction}` (App.tsx line 260). -/
def verdictText (r : PredictionResult) : String :=
  "This mushroom is predicted to be " ++ r.prediction.render

/-- Spec-modelled formatter, written from the spec's words for comparison
with the source renderer: "the server-returned confidence multiplied by
100 and formatted to two decimal places followed by a percent sign"
(spec section 8). It scales the confidence to hundredths of a percent in
one step. -/
def specPercentString (c : ℚ) : String :=
  let sign := if c < 0 then "-" else ""
  let n : ℕ := (⌊|c| * 10000 + 1 / 2⌋).toNat
  sign ++ toString (n / 100) ++ "." ++
    (if n % 100 < 10 then "0" else "") ++ toString (n % 100)

/-!
Helper definitions and lemmas shared by the claim theorems.
-/

/-- Spec-worded description of the validation subset ("the subset of
required features with empty value", spec section 4.1), used to compare
the source pipeline against the specification. -/
def specEmptyRequired (fs : Features) : List String :=
  (fs.filter (fun kv => decide (kv.1 ∈ REQUIRED_FEATURES ∧ kv.2 = ""))).map Prod.fst

theorem emptyRequiredEntries_eq_spec (fs : Features) :
    emptyRequiredEntries fs =
      fs.filter (fun kv => decide (kv.1 ∈ REQUIRED_FEATURES ∧ kv.2 = "")) := by
  unfold emptyRequiredEntries
  apply List.filter_congr
  intro kv _
  by_cases h1 : kv.1 ∈ REQUIRED_FEATURES <;> by_cases h2 : kv.2 = "" <;> simp [h1, h2]

theorem emptyRequiredFields_eq_spec (fs : Features) :
    emptyRequiredFields fs = (specEmptyRequired fs).map humanize := by
  unfold emptyRequiredFields emptyRequiredKeys specEmptyRequired
  rw [emptyRequiredEntries_eq_spec]

theorem emptyRequiredFields_pos {fs : Features} {k : String}
    (hk : k ∈ REQUIRED_FEATURES) (hm : (k, "") ∈ fs) :
    0 < (emptyRequiredFields fs).length := by
  have : (k, "") ∈ emptyRequiredEntries fs := by
    rw [emptyRequiredEntries_eq_spec]
    exact List.mem_filter.mpr ⟨hm, by simp [hk]⟩
  unfold emptyRequiredFields emptyRequiredKeys
  simp only [List.length_map]
  exact List.length_pos.mpr (List.ne_nil_of_mem this)

theorem value_eq_of_keys_nodup {fs : Features} {k v1 v2 : String}
    (hnd : (fs.map Prod.fst).Nodup) (h1 : (k, v1) ∈ fs) (h2 : (k, v2) ∈ fs) :
    v1 = v2 := by
  induction fs with
  | nil => cases h1
  | cons kv rest ih =>
    obtain ⟨a, b⟩ := kv
    simp only [List.map_cons, List.nodup_cons] at hnd
    rcases List.mem_cons.mp h1 with h | h1' <;> rcases List.mem_cons.mp h2 with h' | h2'
    · injection h with hk hv
      injection h' with hk' hv'
      rw [hv, hv']
    · injection h with hk hv
      subst hk
      exact absurd (List.mem_map.mpr ⟨(k, v2), h2', rfl⟩) hnd.1
    · injection h' with hk hv
      subst hk
      exact absurd (List.mem_map.mpr ⟨(k, v1), h1', rfl⟩) hnd.1
    · exact ih hnd.2 h1' h2'

theorem emptyRequiredFields_eq_nil {fs : Features}
    (hnd : (fs.map Prod.fst).Nodup)
    (hfill : ∀ k ∈ REQUIRED_FEATURES, ∃ kv ∈ fs, kv.1 = k ∧ kv.2 ≠ "") :
    emptyRequiredFields fs = [] := by
  unfold emptyRequiredFields emptyRequiredKeys
  rw [emptyRequiredEntries_eq_spec]
  have : fs.filter (fun kv => decide (kv.1 ∈ REQUIRED_FEATURES ∧ kv.2 = "")) = [] := by
    rw [List.filter_eq_nil_iff]
    intro kv hkv
    simp only [decide_eq_true_eq, not_and]
    intro hreq hempty
    obtain ⟨kv', hmem, heq, hne⟩ := hfill kv.1 hreq
    have hmem' : (kv.1, kv'.2) ∈ fs := by
      rw [← heq]
      exact hmem
    have : kv'.2 = kv.2 := value_eq_of_keys_nodup hnd hmem' hkv
    exact hne (this.trans hempty)
  rw [this]
  rfl

theorem toFixedTwo_mul100_eq_spec (c : ℚ) :
    toFixedTwo (c * 100) = specPercentString c := by
  unfold toFixedTwo specPercentString
  have h1 : |c * 100| * 100 = |c| * 10000 := by
    rw [abs_mul]
    norm_num
    ring
  have h2 : (if c * 100 < 0 then "-" else "") = if c < 0 then "-" else "" := by
    by_cases h : c < 0
    · rw [if_pos h, if_pos (by nlinarith)]
    · rw [if_neg h, if_neg (fun hc => h (by nlinarith))]
  rw [h1, h2]

/-!
Concrete states used by the witnesses.
-/

/-- A features mapping with all twelve required features filled and one
optional feature left unset (empty string). -/
def sampleFeatures : Features :=
  [ ("odor", "foul"), ("spore-print-color", "black"), ("gill-color", "gray")
  , ("cap-color", "brown"), ("bruises", "yes"), ("ring-type", "pendant")
  , ("gill-spacing", "close"), ("cap-shape", "convex"), ("population", "several")
  , ("habitat", "woods"), ("stalk-surface-above-ring", "smooth")
  , ("cap-surface", "smooth"), ("gill-attachment", "") ]

/-- A features mapping with two required features ("odor", "gill-color")
left empty. -/
def partialFeatures : Features :=
  [ ("odor", ""), ("spore-print-color", "black"), ("gill-color", "")
  , ("cap-color", "brown") ]

/-- An idle state over `sampleFeatures`. -/
def filledState : AppState :=
  { result := none, loading := false, error := none
  , imagePreview := none, features := sampleFeatures }

/-- An idle state over `partialFeatures`. -/
def partialState : AppState :=
  { result := none, loading := false, error := none
  , imagePreview := none, features := partialFeatures }

/-- A state holding a result from a previous successful submission. -/
def staleResultState : AppState :=
  { result := some ⟨.poisonous, 87/100⟩, loading := false, error := none
  , imagePreview := none, features := sampleFeatures }

/-- Concrete rendering of the validation message for `partialState`. -/
theorem partialState_message_concrete :
    (handleSubmit partialState (.failure none)).1.error =
      some "Please fill in all required fields: Odor, Gill Color" := by decide

/-- C1: for every feature mapping in which at least one of the twelve
required features has the empty string value, `handleSubmit` issues no
request to the prediction endpoint, ends with loading off, and sets the
error message to the listing of exactly the required features whose value
is empty, each humanized by splitting its name on hyphens and capitalizing
each word. -/
theorem c1_empty_required_rejects_submission
    (s : AppState) (server : PredictResponse) (k : String)
    (hk : k ∈ REQUIRED_FEATURES) (hm : (k, "") ∈ s.features) :
    (handleSubmit s server).2 = [] ∧
    (handleSubmit s server).1.error =
      some (missingFieldsMessage ((specEmptyRequired s.features).map humanize)) ∧
    (handleSubmit s server).1.loading = false := by
  have hpos := emptyRequiredFields_pos hk hm
  rw [emptyRequiredFields_eq_spec, List.length_map] at hpos
  simp [handleSubmit, hpos, emptyRequiredFields_eq_spec]

/-- Witness for C1 at `partialState` with required feature "odor" empty. -/
theorem c1_witness :
    ("odor" ∈ REQUIRED_FEATURES ∧ ("odor", "") ∈ partialState.features) ∧
    ((handleSubmit partialState (.failure none)).2 = [] ∧
     (handleSubmit partialState (.failure none)).1.error =
       some (missingFieldsMessage ((specEmptyRequired partialState.features).map humanize)) ∧
     (handleSubmit partialState (.failure none)).1.loading = false) :=
  ⟨⟨by decide, by decide⟩,
   c1_empty_required_rejects_submission partialState (.failure none) "odor"
     (by decide) (by decide)⟩

/-- C2: for every feature mapping with unique keys in which all twelve
required features are present and non-empty, `handleSubmit` invokes the
prediction endpoint exactly once, and the request body is the full feature
mapping, so every entry — including optional features carried as empty
strings — is part of the posted body. -/
theorem c2_filled_required_posts_once
    (s : AppState) (server : PredictResponse)
    (hnd : (s.features.map Prod.fst).Nodup)
    (hfill : ∀ k ∈ REQUIRED_FEATURES, ∃ kv ∈ s.features, kv.1 = k ∧ kv.2 ≠ "") :
    (handleSubmit s server).2 = [s.features] ∧
    ∀ kv ∈ s.features, ∀ body ∈ (handleSubmit s server).2, kv ∈ body := by
  have hnil := emptyRequiredFields_eq_nil hnd hfill
  cases server <;> simp [handleSubmit, hnil]

/-- Witness for C2 at `filledState`, whose optional feature
"gill-attachment" is carried as the empty string. -/
theorem c2_witness :
    ((filledState.features.map Prod.fst).Nodup ∧
     (∀ k ∈ REQUIRED_FEATURES, ∃ kv ∈ filledState.features, kv.1 = k ∧ kv.2 ≠ "")) ∧
    ((handleSubmit filledState (.success ⟨.poisonous, 87/100⟩)).2 = [filledState.features] ∧
     ∀ kv ∈ filledState.features,
       ∀ body ∈ (handleSubmit filledState (.success ⟨.poisonous, 87/100⟩)).2, kv ∈ body) :=
  ⟨⟨by decide, by decide⟩,
   c2_filled_required_posts_once filledState (.success ⟨.poisonous, 87/100⟩)
     (by decide) (by decide)⟩

/-- C3 (refuted at a prototype-chain key): the claim that no form entry is
ever created for a detected key outside the known schema fails, because
the source guard `key in newFeatures` (App.tsx line 83) also matches the
members every plain object inherits from `Object.prototype`. At this
input the detected key "toString" is not a schema key, yet the merge
creates a new own form entry for it carrying the detected value — which
later submissions then POST — while a detected non-schema key matching no
prototype member ("mystery-key") is, as the claim says, ignored. -/
theorem c3_prototype_key_creates_entry :
    ("toString" ∉ filledState.features.map Prod.fst) ∧
    getValue (handleImageUpload filledState ["shroom.jpg"]
        (.ok (some [("toString", "zzz"), ("mystery-key", "qqq")]))).1.features
      "toString" = some "zzz" ∧
    getValue (handleImageUpload filledState ["shroom.jpg"]
        (.ok (some [("toString", "zzz"), ("mystery-key", "qqq")]))).1.features
      "mystery-key" = none := by decide

/-- C4: the rendered confidence string is the server-returned confidence
multiplied by 100 and formatted to two decimal places with a percent sign,
for every rational confidence with no client-side clamping (a confidence
of 3/2, outside [0,1], renders as 150.00%), and the example response
(prediction poisonous, confidence 0.87) renders the heading "This mushroom
is predicted to be poisonous" with "Confidence: 87.00%". -/
theorem c4_confidence_render_passthrough :
    (∀ r : PredictionResult,
      confidenceText r = "Confidence: " ++ specPercentString r.confidence ++ "%") ∧
    verdictText ⟨.poisonous, 87/100⟩ = "This mushroom is predicted to be poisonous" ∧
    confidenceText ⟨.poisonous, 87/100⟩ = "Confidence: 87.00%" ∧
    confidenceText ⟨.poisonous, 3/2⟩ = "Confidence: 150.00%" := by
  refine ⟨?_, rfl, ?_, ?_⟩
  · intro r
    unfold confidenceText
    rw [toFixedTwo_mul100_eq_spec]
  · norm_num [confidenceText, toFixedTwo]
    rfl
  · norm_num [confidenceText, toFixedTwo]
    rfl

/-- C5: each API client function issues exactly one request per invocation
and passes the transport outcome through unchanged — the parsed response
body on success, and on failure the very same error value rethrown with no
wrapping or classification. -/
theorem c5_api_client_single_attempt_passthrough
    (ε α : Type) (fs : Features) (file : String) (a : α) (e : ε) :
    (predictMushroom fs (Except.ok a : Except ε α) = ([fs], .ok a)) ∧
    (predictMushroom fs (Except.error e : Except ε α) = ([fs], .error e)) ∧
    (analyzeImage file (Except.ok a : Except ε α) = ([file], .ok a)) ∧
    (analyzeImage file (Except.error e : Except ε α) = ([file], .error e)) ∧
    (checkHealth (Except.ok a : Except ε α) = ([()], .ok a)) ∧
    (checkHealth (Except.error e : Except ε α) = ([()], .error e)) :=
  ⟨rfl, rfl, rfl, rfl, rfl, rfl⟩

/-- Counterexample to C6 as stated: `staleResultState` holds the result of
a previous successful submission; a subsequent submission that fails does
not discard it — the stale result is still present (alongside the new
error message) after the failed attempt. -/
theorem c6_counterexample :
    (handleSubmit staleResultState (.failure none)).1.result
        = some ⟨.poisonous, 87/100⟩ ∧
    (handleSubmit staleResultState (.failure none)).1.error
        = some predictionFallbackMessage := by
  have h : emptyRequiredFields sampleFeatures = [] := by decide
  simp [handleSubmit, staleResultState, h]

/-- C6 (amended): the stored result is produced at most once per
submission — set exactly when validation passes and the server succeeds —
and is otherwise retained unchanged: a validation-rejected or failed
submission keeps the previous result visible rather than discarding it. -/
theorem c6_result_set_on_success_retained_otherwise
    (s : AppState) (data : PredictionResult) (ef : Option String) :
    (emptyRequiredFields s.features = [] →
      (handleSubmit s (.success data)).1.result = some data) ∧
    (emptyRequiredFields s.features ≠ [] →
      ∀ server, (handleSubmit s server).1.result = s.result) ∧
    (handleSubmit s (.failure ef)).1.result = s.result := by
  refine ⟨?_, ?_, ?_⟩
  · intro h
    simp [handleSubmit, h]
  · intro h server
    have hpos : 0 < (emptyRequiredFields s.features).length := List.length_pos.mpr h
    cases server <;> simp [handleSubmit, hpos]
  · by_cases h : emptyRequiredFields s.features = []
    · simp [handleSubmit, h]
    · have hpos : 0 < (emptyRequiredFields s.features).length := List.length_pos.mpr h
      simp [handleSubmit, hpos]

/-- Witness for the amended C6 at `staleResultState`: a successful
submission replaces the result. -/
theorem c6_witness :
    emptyRequiredFields staleResultState.features = [] ∧
    (handleSubmit staleResultState (.success ⟨.edible, 1/2⟩)).1.result
        = some ⟨.edible, 1/2⟩ :=
  ⟨by decide,
   (c6_result_set_on_success_retained_otherwise staleResultState ⟨.edible, 1/2⟩ none).1
     (by decide)⟩

/-- C7: when validation passes and the prediction call fails,
`handleSubmit` shows the structured error message verbatim when the error
response body carries one, and the generic fallback otherwise; in both
cases loading is reset to false and the stored result is not updated. -/
theorem c7_failed_prediction_aborts_actionably
    (s : AppState) (m : String)
    (h : emptyRequiredFields s.features = []) :
    (handleSubmit s (.failure (some m))).1.error = some m ∧
    (handleSubmit s (.failure none)).1.error = some predictionFallbackMessage ∧
    (∀ ef, (handleSubmit s (.failure ef)).1.loading = false ∧
           (handleSubmit s (.failure ef)).1.result = s.result) := by
  refine ⟨?_, ?_, fun ef => ⟨?_, ?_⟩⟩ <;> simp [handleSubmit, h]

/-- Witness for C7 at `filledState` with a structured server message. -/
theorem c7_witness :
    emptyRequiredFields filledState.features = [] ∧
    ((handleSubmit filledState (.failure (some "Model unavailable"))).1.error
        = some "Model unavailable" ∧
     (handleSubmit filledState (.failure none)).1.error
        = some predictionFallbackMessage ∧
     (∀ ef, (handleSubmit filledState (.failure ef)).1.loading = false ∧
            (handleSubmit filledState (.failure ef)).1.result = filledState.result)) :=
  ⟨by decide, c7_failed_prediction_aborts_actionably filledState "Model unavailable" (by decide)⟩

/-- C8: invoking `handleImageUpload` with an empty or absent file
selection is a complete no-op: the state — features, result, error,
loading, image preview — is returned unchanged and no request is issued,
whatever the network would have answered. -/
theorem c8_empty_file_selection_noop (s : AppState) (server : ImageResponse) :
    handleImageUpload s [] server = (s, []) := rfl

/-- C9: the full outcome of `handleSubmit` is independent of the
pre-existing error message (it is cleared at the start, before
validation), a fully valid successful submission ends with no error
message, while a successful image analysis never touches the error field:
any pre-existing error string survives it. -/
theorem c9_submit_clears_error_upload_preserves_it :
    (∀ (s : AppState) (e1 e2 : Option String) (server : PredictResponse),
      handleSubmit { s with error := e1 } server
        = handleSubmit { s with error := e2 } server) ∧
    (∀ (s : AppState) (data : PredictionResult),
      emptyRequiredFields s.features = [] →
        (handleSubmit s (.success data)).1.error = none) ∧
    (∀ (s : AppState) (files : List String)
        (detected : Option (List (String × String))),
      (handleImageUpload s files (.ok detected)).1.error = s.error) := by
  refine ⟨fun s e1 e2 server => rfl, fun s data h => by simp [handleSubmit, h], ?_⟩
  intro s files detected
  cases files <;> cases detected <;> rfl

/-- Witness for C9: a successful submission from a state carrying an old
error message ends with the error cleared. -/
theorem c9_witness :
    emptyRequiredFields filledState.features = [] ∧
    (handleSubmit filledState (.success ⟨.edible, 1/2⟩)).1.error = none :=
  ⟨by decide,
   c9_submit_clears_error_upload_preserves_it.2.1 filledState ⟨.edible, 1/2⟩ (by decide)⟩

/-- C10: validation inspects only keys present in the features mapping: a
required feature name that is not a key of the mapping is never part of
the empty-required listing, and when every present required entry is
non-empty the submission goes through — the request is posted — even
though that required name is absent. -/
theorem c10_validation_only_sees_present_keys
    (s : AppState) (r : String) (server : PredictResponse)
    (hr : r ∈ REQUIRED_FEATURES) (habs : r ∉ s.features.map Prod.fst) :
    r ∉ emptyRequiredKeys s.features ∧
    ((∀ kv ∈ s.features, kv.1 ∈ REQUIRED_FEATURES → kv.2 ≠ "") →
      (handleSubmit s server).2 = [s.features]) := by
  constructor
  · intro hmem
    apply habs
    unfold emptyRequiredKeys at hmem
    obtain ⟨kv, hkv, hfst⟩ := List.mem_map.mp hmem
    rw [emptyRequiredEntries_eq_spec] at hkv
    exact hfst ▸ List.mem_map.mpr ⟨kv, (List.mem_filter.mp hkv).1, rfl⟩
  · intro hfill
    have hnil : emptyRequiredFields s.features = [] := by
      unfold emptyRequiredFields emptyRequiredKeys
      rw [emptyRequiredEntries_eq_spec]
      have : s.features.filter
          (fun kv => decide (kv.1 ∈ REQUIRED_FEATURES ∧ kv.2 = "")) = [] := by
        rw [List.filter_eq_nil_iff]
        intro kv hkv
        simp only [decide_eq_true_eq, not_and]
        exact fun hreq => hfill kv hkv hreq
      rw [this]
      rfl
    cases server <;> simp [handleSubmit, hnil]

/-- A features mapping like `sampleFeatures` but with no "odor" key at
all: the required name "odor" is absent from the mapping. -/
def noOdorFeatures : Features :=
  [ ("spore-print-color", "black"), ("gill-color", "gray")
  , ("cap-color", "brown"), ("bruises", "yes"), ("ring-type", "pendant")
  , ("gill-spacing", "close"), ("cap-shape", "convex"), ("population", "several")
  , ("habitat", "woods"), ("stalk-surface-above-ring", "smooth")
  , ("cap-surface", "smooth"), ("gill-attachment", "") ]

/-- An idle state over `noOdorFeatures`. -/
def noOdorState : AppState :=
  { result := none, loading := false, error := none
  , imagePreview := none, features := noOdorFeatures }

/-- Witness for C10: with the required key "odor" missing entirely,
validation does not report it and the request is still posted. -/
theorem c10_witness :
    ("odor" ∈ REQUIRED_FEATURES ∧
     "odor" ∉ noOdorState.features.map Prod.fst ∧
     (∀ kv ∈ noOdorState.features, kv.1 ∈ REQUIRED_FEATURES → kv.2 ≠ "")) ∧
    ("odor" ∉ emptyRequiredKeys noOdorState.features ∧
     (handleSubmit noOdorState (.failure none)).2 = [noOdorState.features]) :=
  ⟨⟨by decide, by decide, by decide⟩,
   (c10_validation_only_sees_present_keys noOdorState "odor" (.failure none)
      (by decide) (by decide)).1,
   (c10_validation_only_sees_present_keys noOdorState "odor" (.failure none)
      (by decide) (by decide)).2 (by decide)⟩
